import Mathlib

/-!
Shallow embedding of `priv/platform/macos/hid_reader.c` (SpaceMouse HID
reader with LED control).

The C program's global mutable state is modelled as a `BridgeState` record
threaded explicitly through the functions; each `printf`-to-stdout becomes an
element of a `List String` of emitted protocol lines, in emission order.
The IOKit write primitive `IOHIDDeviceSetReport` is modelled as an
abstract `Transport` function supplied as a parameter: it receives the device
handle, the report type, the report id and the payload bytes, and returns an
`IOReturn` code (an `Int`; `kIOReturnSuccess = 0`).
-/

namespace SpaceMouse

/-- IOKit report type passed to `IOHIDDeviceSetReport`:
`kIOHIDReportTypeOutput` or `kIOHIDReportTypeFeature`. -/
inductive HIDReportType where
  | output
  | feature
deriving DecidableEq, Repr

/-- `kIOReturnSuccess` (value 0). -/
def kIOReturnSuccess : Int := 0

/-- `kIOReturnError` (0xE00002BC as an unsigned 32-bit pattern). -/
def kIOReturnError : Int := 0xE00002BC

/-- The transport underneath the LED path: a model of `IOHIDDeviceSetReport`.
Arguments: device handle, report type, report id, payload bytes; the result
is the returned `IOReturn` code. -/
def Transport : Type := Nat → HIDReportType → Nat → List Nat → Int

/-- The program's global mutable state (`hid_reader.c`, lines 48-51):
`current_device` (an `IOHIDDeviceRef`, `none` = NULL), `device_connected`
and `led_state`.  Device handles are modelled as natural numbers. -/
structure BridgeState where
  device_connected : Bool
  current_device : Option Nat
  led_state : Bool
deriving DecidableEq, Repr

/-- Initial global state: not connected, NULL device, LED off. -/
def initState : BridgeState := ⟨false, none, false⟩

/-- `device_matching_callback`: on a matching notification, if not already
connected, set the flag, store the handle and emit `STATUS:device_connected`;
otherwise do nothing. -/
def device_matching_callback (s : BridgeState) (device : Nat) :
    BridgeState × List String :=
  if !s.device_connected then
    ({ s with device_connected := true, current_device := some device },
     ["STATUS:device_connected"])
  else
    (s, [])

/-- `device_removal_callback`: on a removal notification, if connected, clear
the flag and the handle and emit `STATUS:device_disconnected`; otherwise do
nothing. -/
def device_removal_callback (s : BridgeState) : BridgeState × List String :=
  if s.device_connected then
    ({ s with device_connected := false, current_device := none },
     ["STATUS:device_disconnected"])
  else
    (s, [])

/-- A presence notification delivered by the HID manager: a matching
notification carrying a device handle, or a removal notification. -/
inductive PresenceEvent where
  | matched (device : Nat)
  | removed
deriving DecidableEq, Repr

/-- Dispatch one presence notification to the corresponding callback. -/
def presenceStep (s : BridgeState) (e : PresenceEvent) :
    BridgeState × List String :=
  match e with
  | .matched d => device_matching_callback s d
  | .removed => device_removal_callback s

/-- Run a sequence of presence notifications, concatenating emitted lines. -/
def presenceRun (s : BridgeState) : List PresenceEvent → BridgeState × List String
  | [] => (s, [])
  | e :: es =>
    let r := presenceStep s e
    let r2 := presenceRun r.1 es
    (r2.1, r.2 ++ r2.2)

/-- The value printed by `%d` for a `uint32_t` argument on this platform:
values below `2^31` print as themselves; this reinterpretation is only
exercised outside the `int`-representable range. -/
def c_int_of_uint32 (n : Nat) : Int :=
  if n < 2 ^ 31 then (n : Int) else (n : Int) - 2 ^ 32

/-- `input_callback` (lines 78-127): classify one HID value by
(usage page, usage, integer value) and emit the corresponding protocol line.
Usage page 1 (Generic Desktop) with usage 48-53 emits one `MOTION:` line;
other page-1 usages are ignored; usage page 9 emits one `BUTTON:` line with
`pressed` exactly when the value is strictly positive; other pages emit
nothing. -/
def input_callback (usage_page usage : Nat) (int_value : Int) : List String :=
  if usage_page == 1 then
    match usage with
    | 48 => ["MOTION:x=" ++ toString int_value]
    | 49 => ["MOTION:y=" ++ toString int_value]
    | 50 => ["MOTION:z=" ++ toString int_value]
    | 51 => ["MOTION:rx=" ++ toString int_value]
    | 52 => ["MOTION:ry=" ++ toString int_value]
    | 53 => ["MOTION:rz=" ++ toString int_value]
    | _ => []
  else if usage_page == 9 then
    ["BUTTON:id=" ++ (toString (c_int_of_uint32 usage) ++ (",state=" ++
      (if int_value > 0 then "pressed" else "released")))]
  else
    []

/-- One lowercase hexadecimal digit. -/
def hexDigit (n : Nat) : Char :=
  if n < 10 then Char.ofNat (48 + n) else Char.ofNat (87 + n)

/-- `printf("%08x", r)` for an `IOReturn`: the low 32 bits of `r`, printed as
8 lowercase hex digits (zero padded). -/
def hex8 (r : Int) : String :=
  String.mk ((List.range 8).map fun i =>
    hexDigit ((r % (2 ^ 32 : Int)).toNat / 16 ^ (7 - i) % 16))

/-- The `STATUS:led_method=<m>,result=0x<%08x>` diagnostic line printed by
`try_led_method` for method `m` with transport result `r`. -/
def ledMethodLine (m : Nat) (r : Int) : String :=
  "STATUS:led_method=" ++ (toString m ++ (",result=0x" ++ hex8 r))

/-- The `IOHIDDeviceSetReport` call performed by `try_led_method` for each
method, with the report type, report id and payload of the source's four
switch cases (lines 134-171): method 1 is output report id 4 `[04, b]`,
method 2 feature report id 4 `[04, b]`, method 3 feature report id 7
`[07, b]`, method 4 feature report id 4 `[04, b, 00]`, where `b` is 1 for on
and 0 for off.  Any other method number leaves `result = kIOReturnError`. -/
def methodResult (t : Transport) (dev : Nat) (desired : Bool) (m : Nat) : Int :=
  match m with
  | 1 => t dev .output 4 [4, if desired then 1 else 0]
  | 2 => t dev .feature 4 [4, if desired then 1 else 0]
  | 3 => t dev .feature 7 [7, if desired then 1 else 0]
  | 4 => t dev .feature 4 [4, if desired then 1 else 0, 0]
  | _ => kIOReturnError

/-- `try_led_method` (lines 130-175): perform method `m`'s write, print the
`STATUS:led_method=...` diagnostic, and return whether the transport result
is `kIOReturnSuccess`.  Methods outside 1-4 print nothing and fail. -/
def try_led_method (t : Transport) (dev : Nat) (m : Nat) (desired : Bool) :
    List String × Bool :=
  if 1 ≤ m ∧ m ≤ 4 then
    ([ledMethodLine m (methodResult t dev desired m)],
     methodResult t dev desired m == kIOReturnSuccess)
  else
    ([], kIOReturnError == kIOReturnSuccess)

/-- The `for (method = 1; method <= 4; method++)` loop body of
`send_led_command`, over an explicit list of method indices: try each method
in order, stopping at the first success and returning its index. -/
def led_try_loop (t : Transport) (dev : Nat) (desired : Bool) :
    List Nat → List String × Option Nat
  | [] => ([], none)
  | m :: ms =>
    let r := try_led_method t dev m desired
    if r.2 then
      (r.1, some m)
    else
      (r.1 ++ (led_try_loop t dev desired ms).1, (led_try_loop t dev desired ms).2)

/-- The availability test at the top of `send_led_command` (line 180):
`!current_device || !device_connected`. -/
def device_unavailable (s : BridgeState) : Bool :=
  s.current_device.isNone || !s.device_connected

/-- The `STATUS:led_attempting=on|off` line. -/
def ledAttemptingLine (desired : Bool) : String :=
  "STATUS:led_attempting=" ++ (if desired then "on" else "off")

/-- The `LED:state=on|off,method=<m>` confirmation line. -/
def ledStateLine (desired : Bool) (m : Nat) : String :=
  "LED:state=" ++ ((if desired then "on" else "off") ++ (",method=" ++ toString m))

/-- `send_led_command` (lines 178-205): if the device is unavailable, emit
`STATUS:led_failed=device_not_available` and fail; otherwise emit the
attempting line, probe methods 1-4 in order, and on the first success update
`led_state`, emit the confirmation line with that method's index and succeed;
if all four fail, emit `STATUS:led_failed=all_methods_failed` and fail with
the state unchanged. -/
def send_led_command (t : Transport) (s : BridgeState) (desired : Bool) :
    BridgeState × List String × Bool :=
  if device_unavailable s then
    (s, ["STATUS:led_failed=device_not_available"], false)
  else
    let dev := s.current_device.getD 0
    match led_try_loop t dev desired [1, 2, 3, 4] with
    | (lines, some m) =>
      ({ s with led_state := desired },
       ledAttemptingLine desired :: lines ++ [ledStateLine desired m], true)
    | (lines, none) =>
      (s, ledAttemptingLine desired :: lines ++ ["STATUS:led_failed=all_methods_failed"],
       false)

/-- `handle_stdin_command` (lines 208-232): lines beginning with the four
characters `LED:` dispatch on the remainder (`on`, `off`, otherwise an
`unknown_led_command` diagnostic echoing the remainder); any other line gets
an `unknown_command` diagnostic echoing the whole line. -/
def handle_stdin_command (t : Transport) (s : BridgeState) (line : String) :
    BridgeState × List String :=
  match line.data with
  | 'L' :: 'E' :: 'D' :: ':' :: cmd =>
    if cmd = ['o', 'n'] then
      let r := send_led_command t s true
      (r.1, r.2.1)
    else if cmd = ['o', 'f', 'f'] then
      let r := send_led_command t s false
      (r.1, r.2.1)
    else
      (s, ["STATUS:unknown_led_command=" ++ String.mk cmd])
  | _ => (s, ["STATUS:unknown_command=" ++ line])

/-- The inbound command type of the protocol: `LED:on`, `LED:off`, or an
unrecognized line carried verbatim. -/
inductive Command where
  | ledOn
  | ledOff
  | unknown (raw : String)
deriving DecidableEq, Repr

/-- The classification implicit in `handle_stdin_command`'s branching, as a
pure parser: exactly `LED:on` and `LED:off` are recognized (case
sensitively); every other line is `unknown` carrying the original line. -/
def parseCommand (line : String) : Command :=
  match line.data with
  | 'L' :: 'E' :: 'D' :: ':' :: cmd =>
    if cmd = ['o', 'n'] then .ledOn
    else if cmd = ['o', 'f', 'f'] then .ledOff
    else .unknown line
  | _ => .unknown line

/-- The diagnostic line `handle_stdin_command` emits for an unrecognized
line: `STATUS:unknown_led_command=<rest>` when the line has the `LED:`
prefix, `STATUS:unknown_command=<line>` otherwise. -/
def unknownDiag (line : String) : String :=
  match line.data with
  | 'L' :: 'E' :: 'D' :: ':' :: cmd => "STATUS:unknown_led_command=" ++ String.mk cmd
  | _ => "STATUS:unknown_command=" ++ line

/-- Outcomes of the external IOKit calls made during initialization:
whether `IOHIDManagerCreate` and `CFDictionaryCreateMutable` return non-NULL,
and the `IOReturn` of `IOHIDManagerOpen`. -/
structure Env where
  createOK : Bool
  dictOK : Bool
  openResult : Int
deriving DecidableEq, Repr

/-- `initialize_hid_system` (lines 282-322): fail (printing an ERROR line to
stderr) if manager creation fails, if the matching dictionary cannot be
created, or if `IOHIDManagerOpen` does not return `kIOReturnSuccess`;
otherwise succeed.  Returns (success, stderr lines). -/
def initialize_hid_system (env : Env) : Bool × List String :=
  if !env.createOK then
    (false, ["ERROR: Failed to create HID manager"])
  else if !env.dictOK then
    (false, ["ERROR: Failed to create matching dictionary"])
  else if env.openResult != kIOReturnSuccess then
    (false, ["ERROR: Failed to open HID manager (0x" ++ hex8 env.openResult ++ ")"])
  else
    (true, [])

/-- The startup portion of `main` (lines 337-347): if initialization fails,
exit with status 1 having emitted nothing on stdout; otherwise emit
`STATUS:ready` and enter the event loop (modelled as no exit).  Returns
(exit status if the process exits during startup, stdout lines). -/
def main_startup (env : Env) : Option Nat × List String :=
  if (initialize_hid_system env).1 then
    (none, ["STATUS:ready"])
  else
    (some 1, [])

/-- The presence invariant relating the two global flags: `device_connected`
is true exactly when `current_device` is non-NULL. -/
def presence_inv (s : BridgeState) : Prop :=
  s.device_connected = true ↔ s.current_device.isSome = true

/-- A transport on which every write fails. -/
def failTransport : Transport := fun _ _ _ _ => kIOReturnError

/-- A transport that accepts exactly method 3's write for "on" (feature
report id 7, payload `[7, 1]`) and rejects everything else. -/
def method3Transport : Transport := fun _ ty rid data =>
  if ty = .feature ∧ rid = 7 ∧ data = [7, 1] then kIOReturnSuccess else kIOReturnError

/-- A connected state holding device handle 5 with the LED off. -/
def connState : BridgeState := ⟨true, some 5, false⟩

/-- Characters of an appended string are the appended character lists. -/
theorem data_append (a b : String) : (a ++ b).data = a.data ++ b.data := rfl

/-- Two strings differ if they differ at a character index inside the left
part of the first. -/
theorem append_ne_left (a b c : String) (i : Nat)
    (hi : i < a.data.length) (h : a.data[i]? ≠ c.data[i]?) : a ++ b ≠ c := by
  intro heq
  apply h
  have hd : a.data ++ b.data = c.data := by rw [← data_append, heq]
  have h1 : (a.data ++ b.data)[i]? = a.data[i]? := List.getElem?_append_left hi
  rw [← hd, h1]

/-- Two appended strings differ if their left parts differ at a common
character index. -/
theorem append_ne_append (a b c d : String) (i : Nat)
    (hi : i < a.data.length) (hi2 : i < c.data.length)
    (h : a.data[i]? ≠ c.data[i]?) : a ++ b ≠ c ++ d := by
  intro heq
  apply h
  have hd : a.data ++ b.data = c.data ++ d.data := by
    rw [← data_append, ← data_append, heq]
  have h1 : (a.data ++ b.data)[i]? = a.data[i]? := List.getElem?_append_left hi
  have h2 : (c.data ++ d.data)[i]? = c.data[i]? := List.getElem?_append_left hi2
  rw [← h1, hd, h2]

/-- `STATUS:ready` is not a singleton line whose prefix differs from it. -/
theorem single_ne_ready (a b : String) (i : Nat) (hi : i < a.data.length)
    (h : a.data[i]? ≠ ("STATUS:ready" : String).data[i]?) :
    "STATUS:ready" ∉ [a ++ b] := by
  intro hmem
  rw [List.mem_singleton] at hmem
  exact append_ne_left a b "STATUS:ready" i hi h hmem.symm

/-- `send_led_command` either leaves the state unchanged or only sets
`led_state` to the requested value. -/
theorem send_led_command_state (t : Transport) (s : BridgeState) (desired : Bool) :
    (send_led_command t s desired).1 = s ∨
    (send_led_command t s desired).1 = { s with led_state := desired } := by
  unfold send_led_command
  split
  · exact Or.inl rfl
  · rcases hls : led_try_loop t (s.current_device.getD 0) desired [1, 2, 3, 4] with ⟨lines, res⟩
    cases res <;> simp [hls]

/-- `handle_stdin_command` never changes the presence fields. -/
theorem handle_stdin_command_frame (t : Transport) (s : BridgeState) (line : String) :
    (handle_stdin_command t s line).1.device_connected = s.device_connected ∧
    (handle_stdin_command t s line).1.current_device = s.current_device := by
  unfold handle_stdin_command
  split
  · split
    · rcases send_led_command_state t s true with h | h <;> simp [h]
    · split
      · rcases send_led_command_state t s false with h | h <;> simp [h]
      · simp
  · simp

/-- The outputs of `send_led_command` do not depend on the stored
`led_state`. -/
theorem send_led_command_out_led_state (t : Transport) (s : BridgeState) (b desired : Bool) :
    (send_led_command t { s with led_state := b } desired).2 =
      (send_led_command t s desired).2 := by
  obtain ⟨c, dv, l⟩ := s
  show (send_led_command t ⟨c, dv, b⟩ desired).2 = (send_led_command t ⟨c, dv, l⟩ desired).2
  unfold send_led_command
  have hu : ∀ x : Bool, device_unavailable ⟨c, dv, x⟩ = (dv.isNone || !c) := fun _ => rfl
  rw [hu b, hu l]
  by_cases hcond : (dv.isNone || !c) = true
  · simp [hcond]
  · simp only [hcond, Bool.false_eq_true, if_false]
    rcases hls : led_try_loop t ((⟨c, dv, b⟩ : BridgeState).current_device.getD 0) desired [1, 2, 3, 4] with ⟨lines, res⟩
    have hls2 : led_try_loop t ((⟨c, dv, l⟩ : BridgeState).current_device.getD 0) desired [1, 2, 3, 4] = (lines, res) := hls
    cases res <;> simp [hls, hls2]

/-- Every line printed by `try_led_method` is a `STATUS:led_method=` line. -/
theorem try_led_method_lines (t : Transport) (dev : Nat) (m : Nat) (desired : Bool) :
    ∀ l ∈ (try_led_method t dev m desired).1, ∃ mm r, l = ledMethodLine mm r := by
  intro l hl
  unfold try_led_method at hl
  split at hl
  · simp at hl
    exact ⟨m, _, hl⟩
  · simp at hl

/-- Every line printed by the probe loop is a `STATUS:led_method=` line. -/
theorem led_try_loop_lines (t : Transport) (dev : Nat) (desired : Bool) :
    ∀ ms : List Nat, ∀ l ∈ (led_try_loop t dev desired ms).1, ∃ mm r, l = ledMethodLine mm r := by
  intro ms
  induction ms with
  | nil => simp [led_try_loop]
  | cons m ms ih =>
    intro l hl
    unfold led_try_loop at hl
    by_cases hm : (try_led_method t dev m desired).2 = true
    · rw [if_pos hm] at hl
      exact try_led_method_lines t dev m desired l hl
    · rw [if_neg hm] at hl
      rcases List.mem_append.mp hl with h | h
      · exact try_led_method_lines t dev m desired l h
      · exact ih l h

/-- `send_led_command` never prints `STATUS:ready`. -/
theorem ready_not_in_send (t : Transport) (s : BridgeState) (desired : Bool) :
    "STATUS:ready" ∉ (send_led_command t s desired).2.1 := by
  unfold send_led_command
  split
  · show "STATUS:ready" ∉ ["STATUS:led_failed=device_not_available"]
    decide
  · rcases hls : led_try_loop t (s.current_device.getD 0) desired [1, 2, 3, 4] with ⟨lines, res⟩
    have hlines : ∀ l ∈ lines, ∃ mm r, l = ledMethodLine mm r := by
      have h := led_try_loop_lines t (s.current_device.getD 0) desired [1, 2, 3, 4]
      rw [hls] at h
      exact h
    have hnl : "STATUS:ready" ∉ lines := by
      intro hin
      obtain ⟨mm, r, hl⟩ := hlines _ hin
      exact append_ne_left "STATUS:led_method=" _ "STATUS:ready" 7 (by decide) (by decide) hl.symm
    dsimp only
    rw [hls]
    cases res with
    | some m =>
      intro hmem
      rcases List.mem_cons.mp hmem with h | h
      · exact append_ne_left "STATUS:led_attempting=" _ "STATUS:ready" 7 (by decide) (by decide) h.symm
      rcases List.mem_append.mp h with h | h
      · exact hnl h
      · rw [List.mem_singleton] at h
        exact append_ne_left "LED:state=" _ "STATUS:ready" 0 (by decide) (by decide) h.symm
    | none =>
      intro hmem
      rcases List.mem_cons.mp hmem with h | h
      · exact append_ne_left "STATUS:led_attempting=" _ "STATUS:ready" 7 (by decide) (by decide) h.symm
      rcases List.mem_append.mp h with h | h
      · exact hnl h
      · rw [List.mem_singleton] at h
        exact absurd h (by decide)

/-- `handle_stdin_command` never prints `STATUS:ready`. -/
theorem ready_not_in_handle_stdin (t : Transport) (s : BridgeState) (line : String) :
    "STATUS:ready" ∉ (handle_stdin_command t s line).2 := by
  unfold handle_stdin_command
  split
  · split
    · exact ready_not_in_send t s true
    · split
      · exact ready_not_in_send t s false
      · exact single_ne_ready "STATUS:unknown_led_command=" _ 7 (by decide) (by decide)
  · exact single_ne_ready "STATUS:unknown_command=" _ 7 (by decide) (by decide)

/-- The presence callbacks never print `STATUS:ready`. -/
theorem ready_not_in_presence (s : BridgeState) (e : PresenceEvent) :
    "STATUS:ready" ∉ (presenceStep s e).2 := by
  obtain ⟨c, dv, l⟩ := s
  cases c <;> cases e <;>
    simp [presenceStep, device_matching_callback, device_removal_callback]

/-- `input_callback` never prints `STATUS:ready`. -/
theorem ready_not_in_input (p u : Nat) (v : Int) :
    "STATUS:ready" ∉ input_callback p u v := by
  unfold input_callback
  split
  · split
    all_goals first
      | exact single_ne_ready _ _ 0 (by decide) (by decide)
      | exact List.not_mem_nil _
  · split
    · exact single_ne_ready _ _ 0 (by decide) (by decide)
    · exact List.not_mem_nil _

/-- `LED:on` dispatches to `send_led_command true`. -/
theorem handle_stdin_ledOn (t : Transport) (s : BridgeState) :
    handle_stdin_command t s "LED:on" =
      ((send_led_command t s true).1, (send_led_command t s true).2.1) := rfl

/-- `LED:off` dispatches to `send_led_command false`. -/
theorem handle_stdin_ledOff (t : Transport) (s : BridgeState) :
    handle_stdin_command t s "LED:off" =
      ((send_led_command t s false).1, (send_led_command t s false).2.1) := rfl

/-- C1: with a connected device, `send_led_command` attempts the LED methods
in the fixed order 1,2,3,4, stops at the first method `k` whose transport
write succeeds (all earlier methods having failed), emits the confirmation
line naming exactly `k`, and updates only `led_state`; moreover the outputs
of any later invocation are those of the same invocation run from the
original state, i.e. each invocation restarts the probe at method 1 with no
memory of which method previously succeeded. -/
theorem C1_led_method_probe_order
    (t : Transport) (s : BridgeState) (dev : Nat) (desired : Bool) (k : Nat)
    (hdev : s.current_device = some dev) (hconn : s.device_connected = true)
    (hk1 : 1 ≤ k) (hk4 : k ≤ 4)
    (hfail : ∀ j, j < k → 1 ≤ j → methodResult t dev desired j ≠ kIOReturnSuccess)
    (hsucc : methodResult t dev desired k = kIOReturnSuccess) :
    send_led_command t s desired =
      ({ s with led_state := desired },
       ledAttemptingLine desired ::
         (List.range' 1 k).map (fun m => ledMethodLine m (methodResult t dev desired m))
         ++ [ledStateLine desired k],
       true) ∧
    (∀ (t2 : Transport) (d2 : Bool),
      (send_led_command t2 (send_led_command t s desired).1 d2).2 =
        (send_led_command t2 s d2).2) := by
  have hunav : device_unavailable s = false := by
    simp [device_unavailable, hdev, hconn]
  have hgetD : s.current_device.getD 0 = dev := by rw [hdev]; rfl
  constructor
  · unfold send_led_command
    rw [hunav, hgetD]
    simp only [Bool.false_eq_true, if_false]
    interval_cases k
    · have h1 : (methodResult t dev desired 1 == kIOReturnSuccess) = true := by
        simp [hsucc]
      simp [led_try_loop, try_led_method, h1, List.range']
    · have h1 : (methodResult t dev desired 1 == kIOReturnSuccess) = false := by
        simp [hfail 1 (by omega) (by omega)]
      have h2 : (methodResult t dev desired 2 == kIOReturnSuccess) = true := by simp [hsucc]
      simp [led_try_loop, try_led_method, h1, h2, List.range']
    · have h1 : (methodResult t dev desired 1 == kIOReturnSuccess) = false := by
        simp [hfail 1 (by omega) (by omega)]
      have h2 : (methodResult t dev desired 2 == kIOReturnSuccess) = false := by
        simp [hfail 2 (by omega) (by omega)]
      have h3 : (methodResult t dev desired 3 == kIOReturnSuccess) = true := by simp [hsucc]
      simp [led_try_loop, try_led_method, h1, h2, h3, List.range']
    · have h1 : (methodResult t dev desired 1 == kIOReturnSuccess) = false := by
        simp [hfail 1 (by omega) (by omega)]
      have h2 : (methodResult t dev desired 2 == kIOReturnSuccess) = false := by
        simp [hfail 2 (by omega) (by omega)]
      have h3 : (methodResult t dev desired 3 == kIOReturnSuccess) = false := by
        simp [hfail 3 (by omega) (by omega)]
      have h4 : (methodResult t dev desired 4 == kIOReturnSuccess) = true := by simp [hsucc]
      simp [led_try_loop, try_led_method, h1, h2, h3, h4, List.range']
  · intro t2 d2
    rcases send_led_command_state t s desired with h | h <;> rw [h]
    exact send_led_command_out_led_state t2 s desired d2

/-- C1 witness: on a transport accepting only method 3's write, the probe
from a connected state reports method 3. -/
theorem C1_led_method_probe_order_witness :
    send_led_command method3Transport connState true =
      ({ connState with led_state := true },
       ledAttemptingLine true ::
         (List.range' 1 3).map (fun m => ledMethodLine m (methodResult method3Transport 5 true m))
         ++ [ledStateLine true 3],
       true) :=
  (C1_led_method_probe_order method3Transport connState 5 true 3 rfl rfl
    (by decide) (by decide) (by decide) (by decide)).1

/-- C2 counterexample: with the device disconnected (the initial state), a
`LED:on` command emits only the `STATUS:led_failed=device_not_available`
line; in particular the `STATUS:led_attempting=on` line claimed to precede
it is not emitted. -/
theorem C2_led_unavailable_counterexample :
    (handle_stdin_command failTransport initState "LED:on").2 =
      ["STATUS:led_failed=device_not_available"] ∧
    "STATUS:led_attempting=on" ∉ (handle_stdin_command failTransport initState "LED:on").2 := by
  decide

/-- C2 (amended): when a `LED:on` command is processed while the device is
disconnected, the program emits only `STATUS:led_failed=device_not_available`
(no `STATUS:led_attempting=on` line), emits no `LED:state=` line and no
`STATUS:led_method=` line, and the operation fails immediately with the
state unchanged, without attempting any of the four methods. -/
theorem C2_led_unavailable (t : Transport) (s : BridgeState)
    (h : s.device_connected = false) :
    send_led_command t s true = (s, ["STATUS:led_failed=device_not_available"], false) ∧
    handle_stdin_command t s "LED:on" = (s, ["STATUS:led_failed=device_not_available"]) ∧
    ledAttemptingLine true ∉ (handle_stdin_command t s "LED:on").2 ∧
    (∀ m r, ledMethodLine m r ∉ (handle_stdin_command t s "LED:on").2) ∧
    (∀ suffix, ("LED:state=" ++ suffix) ∉ (handle_stdin_command t s "LED:on").2) := by
  have hunav : device_unavailable s = true := by
    simp [device_unavailable, h]
  have hsend : send_led_command t s true =
      (s, ["STATUS:led_failed=device_not_available"], false) := by
    unfold send_led_command
    rw [hunav]
    rfl
  have hh : handle_stdin_command t s "LED:on" =
      (s, ["STATUS:led_failed=device_not_available"]) := by
    rw [handle_stdin_ledOn t s, hsend]
  have hlines : (handle_stdin_command t s "LED:on").2 =
      ["STATUS:led_failed=device_not_available"] := by
    rw [hh]
  refine ⟨hsend, hh, ?_, ?_, ?_⟩
  · rw [hlines]
    decide
  · intro m r
    rw [hlines]
    intro hmem
    rw [List.mem_singleton] at hmem
    exact append_ne_left "STATUS:led_method=" _ "STATUS:led_failed=device_not_available" 11
      (by decide) (by decide) hmem
  · intro suffix
    rw [hlines]
    intro hmem
    rw [List.mem_singleton] at hmem
    exact append_ne_left "LED:state=" suffix "STATUS:led_failed=device_not_available" 0
      (by decide) (by decide) hmem

/-- C2 witness: the amended behavior at the initial (disconnected) state. -/
theorem C2_led_unavailable_witness :
    send_led_command failTransport initState true =
      (initState, ["STATUS:led_failed=device_not_available"], false) :=
  (C2_led_unavailable failTransport initState rfl).1

/-- C3: presence transitions are idempotent: from a disconnected state two
consecutive matching notifications emit exactly one `STATUS:device_connected`
line; a duplicate matching notification adds no output beyond the first; a
removal notification while already disconnected emits nothing; a step emits
output exactly when the connected flag actually changes, and then exactly one
line. -/
theorem C3_presence_idempotent (s : BridgeState) (d d2 : Nat) (e : PresenceEvent) :
    (s.device_connected = false →
      (presenceRun s [.matched d, .matched d2]).2 = ["STATUS:device_connected"]) ∧
    ((presenceRun s [.matched d, .matched d2]).2 = (presenceRun s [.matched d]).2) ∧
    (s.device_connected = false → device_removal_callback s = (s, [])) ∧
    ((presenceStep s e).2 ≠ [] ↔ (presenceStep s e).1.device_connected ≠ s.device_connected) ∧
    ((presenceStep s e).2.length ≤ 1) := by
  obtain ⟨c, dv, l⟩ := s
  cases c <;> cases e <;>
    simp [presenceRun, presenceStep, device_matching_callback, device_removal_callback]

/-- C3 witness: the double-connect run from the initial state. -/
theorem C3_presence_idempotent_witness :
    (presenceRun initState [.matched 5, .matched 7]).2 = ["STATUS:device_connected"] :=
  (C3_presence_idempotent initState 5 7 PresenceEvent.removed).1 rfl

/-- C4: under usage page 1 the classifier maps usage 48,49,50,51,52,53 to
the axes x,y,z,rx,ry,rz, emitting exactly one `MOTION:<axis>=<value>` line
per report, and every page-1 usage outside 48..53 produces no output. -/
theorem C4_motion_axis_map (v : Int) :
    input_callback 1 48 v = ["MOTION:x=" ++ toString v] ∧
    input_callback 1 49 v = ["MOTION:y=" ++ toString v] ∧
    input_callback 1 50 v = ["MOTION:z=" ++ toString v] ∧
    input_callback 1 51 v = ["MOTION:rx=" ++ toString v] ∧
    input_callback 1 52 v = ["MOTION:ry=" ++ toString v] ∧
    input_callback 1 53 v = ["MOTION:rz=" ++ toString v] ∧
    (∀ u : Nat, u < 48 ∨ 53 < u → input_callback 1 u v = []) := by
  refine ⟨rfl, rfl, rfl, rfl, rfl, rfl, ?_⟩
  intro u hu
  unfold input_callback
  simp only [beq_self_eq_true, if_true]
  split
  any_goals omega
  rfl

/-- C4 witness: usage 100 under page 1 is ignored. -/
theorem C4_motion_axis_map_witness : input_callback 1 100 7 = [] :=
  (C4_motion_axis_map 7).2.2.2.2.2.2 100 (Or.inr (by decide))

/-- C5: every usage-page-9 report yields one `BUTTON:` line whose id is the
report's usage and whose state is `pressed` exactly when the value is
strictly positive, for every integer value including 0 and negative values.
The hypothesis `usage < 2^31` confines the statement to the range where the
C `%d` conversion of the `uint32_t` usage is defined and prints the usage
itself (HID usage ids are 16-bit, so every real report satisfies it). -/
theorem C5_button_classify (usage : Nat) (v : Int) (h : usage < 2 ^ 31) :
    input_callback 9 usage v =
      ["BUTTON:id=" ++ (toString usage ++ (",state=" ++
        (if v > 0 then "pressed" else "released")))] := by
  unfold input_callback c_int_of_uint32
  rw [if_pos h]
  rfl

/-- C5 witness: button usage 2 with value 0 is released. -/
theorem C5_button_classify_witness :
    (2 : Nat) < 2 ^ 31 ∧
    input_callback 9 2 0 =
      ["BUTTON:id=" ++ (toString (2 : Nat) ++ (",state=" ++
        (if (0 : Int) > 0 then "pressed" else "released")))] :=
  ⟨by decide, C5_button_classify 2 0 (by decide)⟩

/-- C6: the command parser recognizes exactly the two case-sensitive lines
`LED:on` and `LED:off`, which dispatch to the LED controller; every other
line is classified `unknown` carrying the original line and is echoed back
as a diagnostic (from which the original line is uniquely recoverable, as
the diagnostic map is injective) rather than causing a failure. -/
theorem C6_command_parse (t : Transport) (s : BridgeState) (line : String) :
    parseCommand "LED:on" = Command.ledOn ∧
    parseCommand "LED:off" = Command.ledOff ∧
    (line ≠ "LED:on" → line ≠ "LED:off" → parseCommand line = Command.unknown line) ∧
    (line ≠ "LED:on" → line ≠ "LED:off" →
      handle_stdin_command t s line = (s, [unknownDiag line])) ∧
    (∀ l2 : String, unknownDiag line = unknownDiag l2 → line = l2) ∧
    handle_stdin_command t s "LED:on" =
      ((send_led_command t s true).1, (send_led_command t s true).2.1) ∧
    handle_stdin_command t s "LED:off" =
      ((send_led_command t s false).1, (send_led_command t s false).2.1) := by
  refine ⟨rfl, rfl, ?_, ?_, ?_, handle_stdin_ledOn t s, handle_stdin_ledOff t s⟩
  · intro h1 h2
    obtain ⟨ld⟩ := line
    unfold parseCommand
    split
    · next cmd heq =>
      by_cases hon : cmd = ['o', 'n']
      · exfalso
        apply h1
        rw [show ld = 'L' :: 'E' :: 'D' :: ':' :: cmd from heq, hon]
      · by_cases hoff : cmd = ['o', 'f', 'f']
        · exfalso
          apply h2
          rw [show ld = 'L' :: 'E' :: 'D' :: ':' :: cmd from heq, hoff]
        · rw [if_neg hon, if_neg hoff]
    · rfl
  · intro h1 h2
    obtain ⟨ld⟩ := line
    unfold handle_stdin_command
    split
    · next cmd heq =>
      by_cases hon : cmd = ['o', 'n']
      · exfalso
        apply h1
        rw [show ld = 'L' :: 'E' :: 'D' :: ':' :: cmd from heq, hon]
      · by_cases hoff : cmd = ['o', 'f', 'f']
        · exfalso
          apply h2
          rw [show ld = 'L' :: 'E' :: 'D' :: ':' :: cmd from heq, hoff]
        · rw [if_neg hon, if_neg hoff]
          unfold unknownDiag
          rw [show ld = 'L' :: 'E' :: 'D' :: ':' :: cmd from heq]
          rfl
    · next hno =>
      unfold unknownDiag
      split
      · next cmd heq => exact absurd heq (hno cmd)
      · rfl
  · intro l2 hdiag
    obtain ⟨ld⟩ := line
    obtain ⟨ld2⟩ := l2
    unfold unknownDiag at hdiag
    split at hdiag
    · next cmd heq =>
      split at hdiag
      · next cmd2 heq2 =>
        have hd := congrArg String.data hdiag
        rw [data_append, data_append] at hd
        have hc : cmd = cmd2 := List.append_cancel_left hd
        apply congrArg String.mk
        rw [show ld = 'L' :: 'E' :: 'D' :: ':' :: cmd from heq,
          show ld2 = 'L' :: 'E' :: 'D' :: ':' :: cmd2 from heq2, hc]
      · exact absurd hdiag (append_ne_append "STATUS:unknown_led_command=" _
          "STATUS:unknown_command=" _ 15 (by decide) (by decide) (by decide))
    · split at hdiag
      · exact absurd hdiag (append_ne_append "STATUS:unknown_command=" _
          "STATUS:unknown_led_command=" _ 15 (by decide) (by decide) (by decide))
      · have hd := congrArg String.data hdiag
        rw [data_append, data_append] at hd
        have hc : ld = ld2 := List.append_cancel_left hd
        exact congrArg String.mk hc

/-- C6 witness: a malformed `LED:` line is classified unknown, carried
verbatim. -/
theorem C6_command_parse_witness :
    parseCommand "LED:xyz" = Command.unknown "LED:xyz" :=
  (C6_command_parse failTransport initState "LED:xyz").2.2.1 (by decide) (by decide)

/-- C7: when the device is connected but the transport write fails for all
four methods, `send_led_command` emits the attempting line, the four method
diagnostics and `STATUS:led_failed=all_methods_failed`, returns failure with
the state (including `led_state`) exactly as before the call, and emits no
`LED:state=` confirmation line. -/
theorem C7_all_methods_failed (t : Transport) (s : BridgeState) (dev : Nat) (desired : Bool)
    (hdev : s.current_device = some dev) (hconn : s.device_connected = true)
    (hfail : ∀ m, m ≤ 4 → 1 ≤ m → methodResult t dev desired m ≠ kIOReturnSuccess) :
    send_led_command t s desired =
      (s, ledAttemptingLine desired ::
        [1, 2, 3, 4].map (fun m => ledMethodLine m (methodResult t dev desired m)) ++
        ["STATUS:led_failed=all_methods_failed"], false) ∧
    (∀ suffix, ("LED:state=" ++ suffix) ∉ (send_led_command t s desired).2.1) := by
  have hunav : device_unavailable s = false := by
    simp [device_unavailable, hdev, hconn]
  have hgetD : s.current_device.getD 0 = dev := by rw [hdev]; rfl
  have h1 : (methodResult t dev desired 1 == kIOReturnSuccess) = false := by
    simp [hfail 1 (by omega) (by omega)]
  have h2 : (methodResult t dev desired 2 == kIOReturnSuccess) = false := by
    simp [hfail 2 (by omega) (by omega)]
  have h3 : (methodResult t dev desired 3 == kIOReturnSuccess) = false := by
    simp [hfail 3 (by omega) (by omega)]
  have h4 : (methodResult t dev desired 4 == kIOReturnSuccess) = false := by
    simp [hfail 4 (by omega) (by omega)]
  have heq : send_led_command t s desired =
      (s, ledAttemptingLine desired ::
        [1, 2, 3, 4].map (fun m => ledMethodLine m (methodResult t dev desired m)) ++
        ["STATUS:led_failed=all_methods_failed"], false) := by
    unfold send_led_command
    rw [hunav, hgetD]
    simp [led_try_loop, try_led_method, h1, h2, h3, h4]
  refine ⟨heq, ?_⟩
  intro suffix
  rw [heq]
  intro hmem
  rcases List.mem_cons.mp hmem with h | h
  · exact append_ne_append "LED:state=" suffix "STATUS:led_attempting=" _ 0
      (by decide) (by decide) (by decide) h
  rcases List.mem_append.mp h with h | h
  · simp only [List.mem_map] at h
    obtain ⟨m, _, hl⟩ := h
    exact append_ne_append "LED:state=" suffix "STATUS:led_method=" _ 0
      (by decide) (by decide) (by decide) hl.symm
  · rw [List.mem_singleton] at h
    exact append_ne_left "LED:state=" suffix "STATUS:led_failed=all_methods_failed" 0
      (by decide) (by decide) h

/-- C7 witness: the always-failing transport from a connected state. -/
theorem C7_all_methods_failed_witness :
    send_led_command failTransport connState true =
      (connState, ledAttemptingLine true ::
        [1, 2, 3, 4].map (fun m => ledMethodLine m (methodResult failTransport 5 true m)) ++
        ["STATUS:led_failed=all_methods_failed"], false) :=
  (C7_all_methods_failed failTransport connState 5 true rfl rfl (by decide)).1

/-- C8: if transport initialization fails, the startup path exits with
status 1 having emitted nothing on stdout (in particular no `STATUS:ready`);
if it succeeds, `STATUS:ready` is the unique startup line; and no other
emitter of the program (presence callbacks, input callback, command
handling) ever emits `STATUS:ready`, so it appears exactly once and only
after successful initialization. -/
theorem C8_init_failure_exit (env : Env) (s st : BridgeState) (e : PresenceEvent)
    (t : Transport) (line : String) (p u : Nat) (v : Int) :
    ((initialize_hid_system env).1 = false → main_startup env = (some 1, [])) ∧
    ((initialize_hid_system env).1 = true → main_startup env = (none, ["STATUS:ready"])) ∧
    "STATUS:ready" ∉ (presenceStep s e).2 ∧
    "STATUS:ready" ∉ input_callback p u v ∧
    "STATUS:ready" ∉ (handle_stdin_command t st line).2 := by
  refine ⟨?_, ?_, ready_not_in_presence s e, ready_not_in_input p u v,
    ready_not_in_handle_stdin t st line⟩
  · intro h
    unfold main_startup
    rw [h]
    rfl
  · intro h
    unfold main_startup
    rw [h]
    rfl

/-- C8 witness: an environment whose manager creation fails exits with
status 1 and no stdout output. -/
theorem C8_init_failure_exit_witness :
    main_startup ⟨false, true, 0⟩ = (some 1, []) :=
  (C8_init_failure_exit ⟨false, true, 0⟩ initState initState PresenceEvent.removed
    failTransport "x" 0 0 0).1 rfl

/-- C9: the invariant `device_connected = true ↔ current_device ≠ NULL`
holds initially and is preserved by the matching callback, the removal
callback, and the LED command path (both `send_led_command` and the stdin
dispatcher); consequently the compound availability check of
`send_led_command` is equivalent to testing either condition alone. -/
theorem C9_presence_device_invariant :
    presence_inv initState ∧
    (∀ s d, presence_inv s → presence_inv (device_matching_callback s d).1) ∧
    (∀ s, presence_inv s → presence_inv (device_removal_callback s).1) ∧
    (∀ t s desired, presence_inv s → presence_inv (send_led_command t s desired).1) ∧
    (∀ t s line, presence_inv s → presence_inv (handle_stdin_command t s line).1) ∧
    (∀ s, presence_inv s →
      ((device_unavailable s = true ↔ s.current_device = none) ∧
       (device_unavailable s = true ↔ s.device_connected = false))) := by
  refine ⟨by simp [presence_inv, initState], ?_, ?_, ?_, ?_, ?_⟩
  · rintro ⟨c, dv, l⟩ d h
    cases c <;> simp_all [presence_inv, device_matching_callback]
  · rintro ⟨c, dv, l⟩ h
    cases c <;> simp_all [presence_inv, device_removal_callback]
  · intro t s desired h
    rcases send_led_command_state t s desired with hc | hc <;> rw [hc] <;> exact h
  · intro t s line h
    have hf := handle_stdin_command_frame t s line
    unfold presence_inv at h ⊢
    rw [hf.1, hf.2]
    exact h
  · rintro ⟨c, dv, l⟩ h
    cases c <;> cases dv <;> simp_all [presence_inv, device_unavailable]

/-- C9 witness: the invariant after a matching notification on the initial
state, and the equivalence of the availability checks there. -/
theorem C9_presence_device_invariant_witness :
    presence_inv (device_matching_callback initState 5).1 :=
  C9_presence_device_invariant.2.1 initState 5 C9_presence_device_invariant.1

/-- C10: a matching notification received while already connected leaves the
whole state unchanged (the stored handle is not replaced, `device_connected`
and `led_state` keep their values) and emits nothing; symmetrically a
removal notification while disconnected changes nothing and emits nothing. -/
theorem C10_duplicate_notification_frame (s : BridgeState) (d : Nat) :
    (s.device_connected = true → device_matching_callback s d = (s, [])) ∧
    (s.device_connected = false → device_removal_callback s = (s, [])) := by
  obtain ⟨c, dv, l⟩ := s
  cases c <;> simp [device_matching_callback, device_removal_callback]

/-- C10 witness: a duplicate matching notification on a connected state with
a different handle changes nothing. -/
theorem C10_duplicate_notification_frame_witness :
    device_matching_callback connState 9 = (connState, []) :=
  (C10_duplicate_notification_frame connState 9).1 rfl

end SpaceMouse
